import Mathlib

/-!
Verification of the climbing-wall designer core (`wall_designer.py`).

The development shallowly embeds the data model (`WallSpec`, `MaterialList`),
the derived-angle property `WallSpec.angle_deg`, and the validation-and-
calculation engine `calculate_wall` over the real numbers, with Python's
float arithmetic modelled as exact real arithmetic and `math.atan`,
`math.tan`, `math.cos` modelled by `Real.arctan`, `Real.tan`, `Real.cos`.
Python's `round(x, 1)` is modelled by `round1` (rounding ties away from the
floor; ties never occur in the claims settled here).  A `ValueError` raised
by the code is modelled as `Except.error` carrying a `WallError` value; the
error messages of the source are reproduced by `WallError.message`,
parameterised by the float formatter used for the interpolated numbers.
-/

namespace ClimbingWall

/-- Substring test on character lists: `subListB sub s` is true iff `sub`
occurs contiguously inside `s`. -/
def subListB (sub s : List Char) : Bool :=
  s.tails.any fun t => sub.isPrefixOf t

/-- String `s` contains `sub` as a substring. -/
def containsStr (s sub : String) : Bool :=
  subListB sub.toList s.toList

/-- The distinct error kinds raised by `calculate_wall`
(`wall_designer.py` lines 33-121), in source order.  Constructors carry the
numbers that the source interpolates into the corresponding message.
`UnstableAspect` is the height-to-width aspect-limit error of line 52. -/
inductive WallError where
  | NonPositiveDimension
  | AngleTooShallow (a : ℝ)
  | AngleTooSteep (a : ℝ)
  | HeightExceedsLimit (h : ℝ)
  | WidthTooNarrow (w : ℝ)
  | UnstableAspect (r : ℝ)
  | InsufficientDepth (a : ℝ)
  | ExactDepthExceeded
  | MinimumCapacityViolation

/-- The message of each `ValueError` in `wall_designer.py`, with `fmt`
standing for Python's `":.1f"` float formatting of the interpolated value. -/
def WallError.message (fmt : ℝ → String) : WallError → String
  | .NonPositiveDimension => "All dimensions must be positive numbers"
  | .AngleTooShallow a => "Wall angle " ++ fmt a ++ "° is too shallow. Minimum angle is 15°"
  | .AngleTooSteep a => "Wall angle " ++ fmt a ++ "° is too steep. Maximum safe angle is 70°"
  | .HeightExceedsLimit h => "Height " ++ fmt h ++ "m exceeds safe limit of 4.0m for home installation"
  | .WidthTooNarrow w => "Width " ++ fmt w ++ "m is too small for stability. Minimum width is 1.2m"
  | .UnstableAspect r => "Height-to-width ratio " ++ fmt r ++ " exceeds safe limit of 2.0"
  | .InsufficientDepth a => "Not enough depth. Maximum angle for given depth is " ++ fmt a ++ "°"
  | .ExactDepthExceeded => "Not enough depth for this angle. Reduce angle or increase depth."
  | .MinimumCapacityViolation => "Design cannot safely support minimum required weight of 80kg"

/-- `WallSpec` (lines 13-17): three user-supplied dimensions in meters. -/
structure WallSpec where
  height : ℝ
  width : ℝ
  depth : ℝ

/-- `MaterialList` (lines 24-29).  The Python `dict` of cut angles is
embedded as an association list, preserving insertion order. -/
structure MaterialList where
  plywood_sheets : ℤ
  timber_lengths : List (String × ℝ)
  cut_angles : List (String × ℝ)
  safe_climber_weight : ℝ

noncomputable section

open Real

/-- Python's `math.degrees`. -/
def degOf (x : ℝ) : ℝ := x * 180 / Real.pi

/-- Python's `math.radians`. -/
def radOf (x : ℝ) : ℝ := x * Real.pi / 180

/-- Python's `round(x, 1)`: round to one decimal place.  Mathlib's `round`
rounds half-integer ties up, Python's float `round` rounds them to even;
the two agree except at exact ties, which no claim here touches. -/
def round1 (x : ℝ) : ℝ := ((round (x * 10) : ℤ) : ℝ) / 10

/-- The derived angle property `WallSpec.angle_deg` (lines 19-22):
`round(math.degrees(math.atan(self.depth / self.height)), 1)`. -/
def WallSpec.angle_deg (s : WallSpec) : ℝ :=
  round1 (degOf (Real.arctan (s.depth / s.height)))

/-- The derived angle as Python actually evaluates it: accessing the
property with `height = 0` raises `ZeroDivisionError`, modelled as `none`. -/
def WallSpec.angle_degM (s : WallSpec) : Option ℝ :=
  if s.height = 0 then none else some s.angle_deg

/-- Sheet count (lines 74-78): `ceil(w / 1250) * ceil(panel_height / 2500)`
with `w` and `panel_height = h / cos(angle)` in millimeters. -/
def total_sheets (s : WallSpec) (a : ℝ) : ℤ :=
  ⌈s.width * 1000 / 1250⌉ * ⌈s.height * 1000 / Real.cos (radOf a) / 2500⌉

/-- Frame timber cut list (lines 82-92), converted back to meters. -/
def timber_lengths (s : WallSpec) (a : ℝ) : List (String × ℝ) :=
  [("Base beam", s.width * 1000 / 1000),
   ("Uprights (x2)", 2 * (s.height * 1000) / Real.cos (radOf a) / 1000),
   ("Cross braces (x2)", s.width * 1000 / 1000),
   ("Kicker/struts", s.height * 1000 * Real.tan (radOf a) / 1000)]

/-- Cut angles (lines 94-97). -/
def cut_angles (a : ℝ) : List (String × ℝ) :=
  [("Upright to base", a), ("Top plate join", 90 - a)]

/-- Line 100: `panel_capacity = (w / 1000) * (h / 1000) * 200` where
`w`, `h` are the millimeter values of lines 55-56. -/
def panel_capacity_base (s : WallSpec) : ℝ :=
  (s.width * 1000 / 1000) * (s.height * 1000 / 1000) * 200

/-- Lines 100-107: panel capacity after the steep-angle derating. -/
def panel_capacity (s : WallSpec) (a : ℝ) : ℝ :=
  if radOf a > radOf 45 then panel_capacity_base s * 0.8 else panel_capacity_base s

/-- Lines 101-108: timber capacity (1200 kg) after the steep-angle derating. -/
def timber_capacity (a : ℝ) : ℝ :=
  if radOf a > radOf 45 then 1200 * 0.8 else 1200

/-- Line 110: `min(panel_capacity, timber_capacity, bolt_capacity)` with
`bolt_capacity = 6400`. -/
def raw_capacity (s : WallSpec) (a : ℝ) : ℝ :=
  min (min (panel_capacity s a) (timber_capacity a)) 6400

/-- Line 116: `safe_capacity = raw_capacity / 3.0`. -/
def safe_capacity (s : WallSpec) (a : ℝ) : ℝ := raw_capacity s a / 3.0

/-- Line 117: `safe_climber_weight = safe_capacity / 2.5`. -/
def safe_climber_weight (s : WallSpec) (a : ℝ) : ℝ := safe_capacity s a / 2.5

/-- The `MaterialList` built at lines 123-128. -/
def materials (s : WallSpec) (a : ℝ) : MaterialList :=
  { plywood_sheets := total_sheets s a
    timber_lengths := timber_lengths s a
    cut_angles := cut_angles a
    safe_climber_weight := safe_climber_weight s a }

/-- Lines 36-128 of `calculate_wall`: everything after the positivity check,
with `a` the value Python binds at line 37 (`angle_deg = spec.angle_deg`). -/
def restOf (s : WallSpec) (a : ℝ) : Except WallError MaterialList :=
  if a < 15 then .error (.AngleTooShallow a)
  else if a > 70 then .error (.AngleTooSteep a)
  else if s.height > 4.0 then .error (.HeightExceedsLimit s.height)
  else if s.width < 1.2 then .error (.WidthTooNarrow s.width)
  else if s.height / s.width > 2.0 then .error (.UnstableAspect (s.height / s.width))
  else if s.height * Real.tan (radOf a) > s.depth + 0.01 then
    .error (.InsufficientDepth (degOf (Real.arctan (s.depth / s.height))))
  else if s.height * 1000 * Real.tan (radOf a) > s.depth * 1000 then
    .error .ExactDepthExceeded
  else if safe_climber_weight s a < 80 then .error .MinimumCapacityViolation
  else .ok (materials s a)

/-- `calculate_wall` (lines 31-128). -/
def calculate_wall (s : WallSpec) : Except WallError MaterialList :=
  if s.height ≤ 0 ∨ s.width ≤ 0 ∨ s.depth ≤ 0 then .error .NonPositiveDimension
  else restOf s s.angle_deg

/-- `calculate_wall` with the division inside the `angle_deg` property
access of line 37 made explicit: `none` models the `ZeroDivisionError`
Python would raise there. -/
def calculate_wallM (s : WallSpec) : Option (Except WallError MaterialList) :=
  if s.height ≤ 0 ∨ s.width ≤ 0 ∨ s.depth ≤ 0 then some (.error .NonPositiveDimension)
  else (s.angle_degM).map (restOf s)

/-- The ordered validation checks exactly as the spec lists them
(first violated check wins); `none` means all eight checks pass. -/
def firstViolation (s : WallSpec) : Option WallError :=
  if s.height ≤ 0 ∨ s.width ≤ 0 ∨ s.depth ≤ 0 then some .NonPositiveDimension
  else if s.angle_deg < 15 then some (.AngleTooShallow s.angle_deg)
  else if s.angle_deg > 70 then some (.AngleTooSteep s.angle_deg)
  else if s.height > 4.0 then some (.HeightExceedsLimit s.height)
  else if s.width < 1.2 then some (.WidthTooNarrow s.width)
  else if s.height / s.width > 2.0 then some (.UnstableAspect (s.height / s.width))
  else if s.height * Real.tan (radOf s.angle_deg) > s.depth + 0.01 then
    some (.InsufficientDepth (degOf (Real.arctan (s.depth / s.height))))
  else if s.height * 1000 * Real.tan (radOf s.angle_deg) > s.depth * 1000 then
    some .ExactDepthExceeded
  else none

/-- The safe-climber-weight formula as the spec states it:
`min(panelCapacity, timberCapacity, 6400) / 3.0 / 2.5` with
`panelCapacity = width*height*200`, `timberCapacity = 1200`, both derated
by 0.8 when the derived angle exceeds 45°. -/
def specSafeWeight (s : WallSpec) : ℝ :=
  min (min (if 45 < s.angle_deg then s.width * s.height * 200 * 0.8
            else s.width * s.height * 200)
           (if 45 < s.angle_deg then (1200 : ℝ) * 0.8 else 1200)) 6400 / 3.0 / 2.5

/-- Concrete spec: the reference test wall, derived angle 45.0°. -/
def wallA : WallSpec := ⟨2.4, 2.4, 2.4⟩

/-- Concrete spec: the minimum-capacity scenario of the spec, angle 45.0°. -/
def wallB : WallSpec := ⟨1, 1.2, 1⟩

/-- Concrete spec: a steep wall, derived angle 60.0°. -/
def wallC : WallSpec := ⟨2.4, 2.4, 2.4 * Real.sqrt 3⟩

/-- Concrete spec: true angle just below 45°, so the rounded angle is 45.0°
and the recomputed panel depth exceeds the given depth by less than 1 cm. -/
def wallD : WallSpec := ⟨2.4, 2.4, 2.396⟩

/-- Concrete spec with zero height. -/
def wallZ : WallSpec := ⟨0, 2.4, 1.2⟩

/-- Concrete spec with negative height. -/
def wallN : WallSpec := ⟨-1, 2.4, 1.2⟩

/-- Conversion to radians is strictly monotone. -/
theorem radOf_lt_iff {a b : ℝ} : radOf a < radOf b ↔ a < b := by
  unfold radOf
  rw [div_lt_div_iff_of_pos_right (by norm_num : (0:ℝ) < 180)]
  exact mul_lt_mul_right Real.pi_pos

/-- Value of `radOf` at 45 degrees. -/
theorem rad45 : radOf 45 = Real.pi / 4 := by
  unfold radOf; ring

/-- Value of `radOf` at 60 degrees. -/
theorem rad60 : radOf 60 = Real.pi / 3 := by
  unfold radOf; ring

/-- The tangent of the rounded 45-degree angle. -/
theorem tan_rad45 : Real.tan (radOf 45) = 1 := by
  rw [rad45, Real.tan_pi_div_four]

/-- Degrees of `arctan 1`. -/
theorem deg_arctan_one : degOf (Real.arctan 1) = 45 := by
  rw [Real.arctan_one]
  unfold degOf
  field_simp
  ring

/-- `round1` fixes integers. -/
theorem round1_int (n : ℤ) : round1 ((n : ℝ)) = n := by
  unfold round1
  have h : ((n : ℝ)) * 10 = ((n * 10 : ℤ) : ℝ) := by push_cast; ring
  rw [h, round_intCast]
  push_cast
  ring

/-- Rounding to one decimal cannot cross 15 downward. -/
theorem round1_ge_15 {x : ℝ} (h : 15 < x) : 15 ≤ round1 x := by
  unfold round1
  have h1 : x * 10 - 1 / 2 ≤ ((round (x * 10) : ℤ) : ℝ) := by
    have h2 := abs_sub_round (x * 10)
    rw [abs_le] at h2
    linarith [h2.1, h2.2]
  have h3 : (149 : ℤ) < round (x * 10) := by
    have : ((149 : ℤ) : ℝ) < ((round (x * 10) : ℤ) : ℝ) := by push_cast; linarith
    exact_mod_cast this
  have h4 : (150 : ℤ) ≤ round (x * 10) := by omega
  have h5 : ((150 : ℤ) : ℝ) ≤ ((round (x * 10) : ℤ) : ℝ) := by exact_mod_cast h4
  push_cast at h5
  linarith

/-- Rounding to one decimal cannot cross 70 upward. -/
theorem round1_le_70 {x : ℝ} (h : x < 70) : round1 x ≤ 70 := by
  unfold round1
  have h1 : ((round (x * 10) : ℤ) : ℝ) ≤ x * 10 + 1 / 2 := by
    have h2 := abs_sub_round (x * 10)
    rw [abs_le] at h2
    linarith [h2.1, h2.2]
  have h3 : round (x * 10) < (701 : ℤ) := by
    have : ((round (x * 10) : ℤ) : ℝ) < ((701 : ℤ) : ℝ) := by push_cast; linarith
    exact_mod_cast this
  have h4 : round (x * 10) ≤ (700 : ℤ) := by omega
  have h5 : ((round (x * 10) : ℤ) : ℝ) ≤ ((700 : ℤ) : ℝ) := by exact_mod_cast h4
  push_cast at h5
  linarith

/-- The safe-climber-weight computed by the code equals the formula the
spec states. -/
theorem scw_eq (s : WallSpec) : safe_climber_weight s s.angle_deg = specSafeWeight s := by
  unfold safe_climber_weight safe_capacity raw_capacity panel_capacity timber_capacity
    panel_capacity_base specSafeWeight
  have ew : s.width * 1000 / 1000 = s.width := by ring
  have eh : s.height * 1000 / 1000 = s.height := by ring
  rw [ew, eh]
  simp only [gt_iff_lt, radOf_lt_iff]

/-- Scaling a clipped minimum by the derating factor. -/
theorem min_scale (p : ℝ) :
    min (min (p * 0.8) (1200 * 0.8)) 6400 = 0.8 * min (min p 1200) 6400 := by
  rw [min_eq_left (le_trans (min_le_right _ _) (by norm_num : (1200:ℝ) * 0.8 ≤ 6400))]
  rw [min_eq_left (le_trans (min_le_right _ _) (by norm_num : (1200:ℝ) ≤ 6400))]
  rcases le_total p 1200 with h | h
  · rw [min_eq_left h, min_eq_left (by linarith : p * 0.8 ≤ 1200 * 0.8)]
    ring
  · rw [min_eq_right h, min_eq_right (by linarith : (1200:ℝ) * 0.8 ≤ p * 0.8)]
    ring

/-- If a validation check fires, `calculate_wall` raises exactly the first
violated check's error. -/
theorem cw_eq_of_fv_some (s : WallSpec) (e : WallError) (h : firstViolation s = some e) :
    calculate_wall s = Except.error e := by
  unfold firstViolation at h
  unfold calculate_wall restOf
  split_ifs at h ⊢ <;> simp_all

/-- If all validation checks pass but the capacity check fails,
`calculate_wall` raises the capacity error. -/
theorem cw_min_cap (s : WallSpec) (hfv : firstViolation s = none)
    (hlt : safe_climber_weight s s.angle_deg < 80) :
    calculate_wall s = Except.error WallError.MinimumCapacityViolation := by
  unfold firstViolation at hfv
  unfold calculate_wall restOf
  split_ifs at hfv ⊢ <;> simp_all

/-- If all validation checks and the capacity check pass, `calculate_wall`
returns the materials list. -/
theorem cw_ok_of (s : WallSpec) (hfv : firstViolation s = none)
    (hge : ¬ safe_climber_weight s s.angle_deg < 80) :
    calculate_wall s = Except.ok (materials s s.angle_deg) := by
  unfold firstViolation at hfv
  unfold calculate_wall restOf
  split_ifs at hfv ⊢ <;> simp_all

/-- Inversion: a returned materials list means every check passed and the
result is the one built from the spec. -/
theorem cw_ok_inv (s : WallSpec) (m : MaterialList) (h : calculate_wall s = Except.ok m) :
    firstViolation s = none ∧ ¬ safe_climber_weight s s.angle_deg < 80 ∧
      m = materials s s.angle_deg := by
  unfold calculate_wall restOf at h
  unfold firstViolation
  split_ifs at h ⊢ <;> simp_all

/-- Dimension and angle facts available once all validation checks pass. -/
theorem fv_none_facts (s : WallSpec) (h : firstViolation s = none) :
    0 < s.height ∧ 0 < s.width ∧ 0 < s.depth ∧ 15 ≤ s.angle_deg ∧ s.angle_deg ≤ 70 := by
  unfold firstViolation at h
  split_ifs at h with h1 h2 h3 h4 h5 h6 h7 h8
  all_goals try simp at h
  push_neg at h1 h2 h3
  exact ⟨h1.1, h1.2.1, h1.2.2, h2, h3⟩

/-- Specialisation of `round1_int` to 45. -/
theorem round1_45 : round1 (45 : ℝ) = 45 := by
  have h := round1_int 45
  norm_num at h
  exact h

/-- Specialisation of `round1_int` to 60. -/
theorem round1_60 : round1 (60 : ℝ) = 60 := by
  have h := round1_int 60
  norm_num at h
  exact h

/-- Tangent of sixty degrees in radians. -/
theorem tan_pi_div_three : Real.tan (Real.pi / 3) = Real.sqrt 3 := by
  rw [Real.tan_eq_sin_div_cos, Real.sin_pi_div_three, Real.cos_pi_div_three]
  field_simp

/-- Degrees of `arctan (sqrt 3)`. -/
theorem deg_arctan_sqrt3 : degOf (Real.arctan (Real.sqrt 3)) = 60 := by
  have ha : Real.arctan (Real.sqrt 3) = Real.pi / 3 := by
    rw [← tan_pi_div_three]
    exact Real.arctan_tan (by linarith [Real.pi_pos]) (by linarith [Real.pi_pos])
  rw [ha]
  unfold degOf
  field_simp
  ring

/-- Derived angle of the reference wall. -/
theorem angle_wallA : wallA.angle_deg = 45 := by
  unfold WallSpec.angle_deg
  rw [show wallA.depth / wallA.height = 1 from by norm_num [wallA], deg_arctan_one, round1_45]

/-- The reference wall passes every validation check. -/
theorem fv_wallA : firstViolation wallA = none := by
  unfold firstViolation
  rw [angle_wallA, tan_rad45]
  simp only [wallA]
  norm_num

/-- Safe climber weight of the reference wall. -/
theorem ssw_wallA : specSafeWeight wallA = 153.6 := by
  unfold specSafeWeight
  rw [angle_wallA]
  simp only [wallA]
  rw [if_neg (by norm_num : ¬ (45:ℝ) < 45), if_neg (by norm_num : ¬ (45:ℝ) < 45)]
  rw [min_eq_left (by norm_num : (2.4:ℝ) * 2.4 * 200 ≤ 1200),
    min_eq_left (by norm_num : (2.4:ℝ) * 2.4 * 200 ≤ 6400)]
  norm_num

/-- Evaluation of `calculate_wall` on the reference wall. -/
theorem cw_wallA : calculate_wall wallA = Except.ok (materials wallA 45) := by
  have h := cw_ok_of wallA fv_wallA (by rw [scw_eq, ssw_wallA]; norm_num)
  rw [angle_wallA] at h
  exact h

/-- Derived angle of the minimum-capacity scenario wall. -/
theorem angle_wallB : wallB.angle_deg = 45 := by
  unfold WallSpec.angle_deg
  rw [show wallB.depth / wallB.height = 1 from by norm_num [wallB], deg_arctan_one, round1_45]

/-- The minimum-capacity scenario wall passes every validation check. -/
theorem fv_wallB : firstViolation wallB = none := by
  unfold firstViolation
  rw [angle_wallB, tan_rad45]
  simp only [wallB]
  norm_num

/-- Safe climber weight of the minimum-capacity scenario wall. -/
theorem ssw_wallB : specSafeWeight wallB = 32 := by
  unfold specSafeWeight
  rw [angle_wallB]
  simp only [wallB]
  rw [if_neg (by norm_num : ¬ (45:ℝ) < 45), if_neg (by norm_num : ¬ (45:ℝ) < 45)]
  rw [min_eq_left (by norm_num : (1.2:ℝ) * 1 * 200 ≤ 1200),
    min_eq_left (by norm_num : (1.2:ℝ) * 1 * 200 ≤ 6400)]
  norm_num

/-- Evaluation of `calculate_wall` on the minimum-capacity scenario wall. -/
theorem cw_wallB : calculate_wall wallB = Except.error WallError.MinimumCapacityViolation :=
  cw_min_cap wallB fv_wallB (by rw [scw_eq, ssw_wallB]; norm_num)

/-- Derived angle of the steep wall. -/
theorem angle_wallC : wallC.angle_deg = 60 := by
  unfold WallSpec.angle_deg
  have h : wallC.depth / wallC.height = Real.sqrt 3 := by
    show (2.4 : ℝ) * Real.sqrt 3 / 2.4 = Real.sqrt 3
    rw [mul_comm, mul_div_assoc]
    norm_num
  rw [h, deg_arctan_sqrt3, round1_60]

/-- Tangent of the steep wall's rounded angle. -/
theorem tan_rad60 : Real.tan (radOf 60) = Real.sqrt 3 := by
  rw [rad60, tan_pi_div_three]

/-- The steep wall passes every validation check. -/
theorem fv_wallC : firstViolation wallC = none := by
  have hs3 : 0 < Real.sqrt 3 := Real.sqrt_pos.mpr (by norm_num)
  unfold firstViolation
  rw [angle_wallC, tan_rad60]
  simp only [wallC]
  rw [if_neg (show ¬((2.4:ℝ) ≤ 0 ∨ (2.4:ℝ) ≤ 0 ∨ 2.4 * Real.sqrt 3 ≤ 0) from by
        push_neg
        exact ⟨by norm_num, by norm_num, by positivity⟩)]
  rw [if_neg (by norm_num : ¬ (60:ℝ) < 15), if_neg (by norm_num : ¬ (60:ℝ) > 70),
    if_neg (by norm_num : ¬ (2.4:ℝ) > 4.0), if_neg (by norm_num : ¬ (2.4:ℝ) < 1.2),
    if_neg (by norm_num : ¬ (2.4:ℝ) / 2.4 > 2.0)]
  rw [if_neg (show ¬((2.4:ℝ) * Real.sqrt 3 > 2.4 * Real.sqrt 3 + 0.01) from by
        push_neg
        linarith)]
  rw [if_neg (show ¬((2.4:ℝ) * 1000 * Real.sqrt 3 > 2.4 * Real.sqrt 3 * 1000) from by
        push_neg
        exact le_of_eq (by ring))]

/-- Safe climber weight of the steep wall. -/
theorem ssw_wallC : specSafeWeight wallC = 122.88 := by
  unfold specSafeWeight
  rw [angle_wallC]
  simp only [wallC]
  rw [if_pos (by norm_num : (45:ℝ) < 60), if_pos (by norm_num : (45:ℝ) < 60)]
  rw [min_eq_left (by norm_num : (2.4:ℝ) * 2.4 * 200 * 0.8 ≤ 1200 * 0.8),
    min_eq_left (by norm_num : (2.4:ℝ) * 2.4 * 200 * 0.8 ≤ 6400)]
  norm_num

/-- Evaluation of `calculate_wall` on the steep wall. -/
theorem cw_wallC : calculate_wall wallC = Except.ok (materials wallC 60) := by
  have h := cw_ok_of wallC fv_wallC (by rw [scw_eq, ssw_wallC]; norm_num)
  rw [angle_wallC] at h
  exact h

/-- The zero-height wall fails the positivity check first. -/
theorem fv_wallZ : firstViolation wallZ = some WallError.NonPositiveDimension := by
  unfold firstViolation
  rw [if_pos (show wallZ.height ≤ 0 ∨ wallZ.width ≤ 0 ∨ wallZ.depth ≤ 0 from
    Or.inl (by norm_num [wallZ]))]

/-- The negative-height wall fails the positivity check first. -/
theorem fv_wallN : firstViolation wallN = some WallError.NonPositiveDimension := by
  unfold firstViolation
  rw [if_pos (show wallN.height ≤ 0 ∨ wallN.width ≤ 0 ∨ wallN.depth ≤ 0 from
    Or.inl (by norm_num [wallN]))]

/-- Upper bound for the true angle of `wallD`. -/
theorem arctan_le_aux : Real.arctan ((599:ℝ)/600) < Real.pi / 4 := by
  rw [← Real.arctan_one]
  exact Real.arctan_strictMono (by norm_num)

/-- Lower bound for the true angle of `wallD`: it is within 0.05 degrees
of 45 degrees, so it rounds up to 45.0. -/
theorem arctan_ge_aux : Real.pi / 4 - Real.pi / 3600 ≤ Real.arctan ((599:ℝ)/600) := by
  have hπ2 : 3.14 < Real.pi := Real.pi_gt_d2
  have hπ3 : Real.pi < 3.15 := Real.pi_lt_d2
  have hπ : 0 < Real.pi := Real.pi_pos
  have ht0 : 0 < Real.pi / 3600 := by positivity
  have htπ2 : Real.pi / 3600 < Real.pi / 2 := by linarith
  have htan : Real.pi / 3600 < Real.tan (Real.pi / 3600) := Real.lt_tan ht0 htπ2
  have ht1199 : (1:ℝ) / 1199 < Real.tan (Real.pi / 3600) := by
    have h : (1:ℝ) / 1199 < Real.pi / 3600 := by linarith
    linarith
  have hcos : 0 < Real.cos (Real.pi / 3600) := Real.cos_pos_of_mem_Ioo ⟨by linarith, htπ2⟩
  have hsin : 0 < Real.sin (Real.pi / 3600) := Real.sin_pos_of_pos_of_lt_pi ht0 (by linarith)
  have hkey : Real.cos (Real.pi / 3600) ≤ 1199 * Real.sin (Real.pi / 3600) := by
    rw [Real.tan_eq_sin_div_cos, lt_div_iff₀ hcos] at ht1199
    linarith
  have htan2 : Real.tan (Real.pi / 4 - Real.pi / 3600) ≤ 599 / 600 := by
    rw [Real.tan_eq_sin_div_cos, Real.sin_sub, Real.cos_sub, Real.sin_pi_div_four,
      Real.cos_pi_div_four]
    have hs2 : 0 < Real.sqrt 2 / 2 := by positivity
    have hden : 0 < Real.sqrt 2 / 2 * Real.cos (Real.pi / 3600) +
        Real.sqrt 2 / 2 * Real.sin (Real.pi / 3600) :=
      add_pos (mul_pos hs2 hcos) (mul_pos hs2 hsin)
    rw [div_le_iff₀ hden]
    nlinarith [mul_le_mul_of_nonneg_left hkey (le_of_lt hs2)]
  calc Real.pi / 4 - Real.pi / 3600
      = Real.arctan (Real.tan (Real.pi / 4 - Real.pi / 3600)) :=
        (Real.arctan_tan (by linarith) (by linarith)).symm
    _ ≤ Real.arctan ((599:ℝ)/600) := Real.arctan_strictMono.monotone htan2

/-- The true angle of `wallD` rounds to exactly 45.0 degrees. -/
theorem angle599 : round1 (degOf (Real.arctan ((599:ℝ)/600))) = 45 := by
  have hlo := arctan_ge_aux
  have hhi := arctan_le_aux
  have hπ : 0 < Real.pi := Real.pi_pos
  unfold round1 degOf
  have hb1 : (449.5 : ℝ) ≤ Real.arctan ((599:ℝ)/600) * 180 / Real.pi * 10 := by
    rw [div_mul_eq_mul_div, le_div_iff₀ hπ]
    nlinarith
  have hb2 : Real.arctan ((599:ℝ)/600) * 180 / Real.pi * 10 < 450.5 := by
    rw [div_mul_eq_mul_div, div_lt_iff₀ hπ]
    nlinarith
  have hr : round (Real.arctan ((599:ℝ)/600) * 180 / Real.pi * 10) = 450 := by
    rw [round_eq, Int.floor_eq_iff]
    constructor
    · push_cast
      linarith
    · push_cast
      linarith
  rw [hr]
  norm_num

/-- Derived angle of `wallD`. -/
theorem angle_wallD : wallD.angle_deg = 45 := by
  unfold WallSpec.angle_deg
  rw [show wallD.depth / wallD.height = (599:ℝ)/600 from by norm_num [wallD]]
  exact angle599

/-- `wallD` survives the tolerance depth check but fails the exact one. -/
theorem fv_wallD : firstViolation wallD = some WallError.ExactDepthExceeded := by
  unfold firstViolation
  rw [angle_wallD, tan_rad45]
  simp only [wallD]
  norm_num

/-- Evaluation of `calculate_wall` on `wallD`: the final no-tolerance
depth check raises. -/
theorem cw_wallD : calculate_wall wallD = Except.error WallError.ExactDepthExceeded :=
  cw_eq_of_fv_some wallD _ fv_wallD

/-- Bounds on the true (unrounded) angle of `wallD` in degrees. -/
theorem degD_bounds :
    15 < degOf (Real.arctan ((599:ℝ)/600)) ∧ degOf (Real.arctan ((599:ℝ)/600)) < 70 := by
  have hlo := arctan_ge_aux
  have hhi := arctan_le_aux
  have hπ : 0 < Real.pi := Real.pi_pos
  unfold degOf
  constructor
  · rw [lt_div_iff₀ hπ]
    nlinarith
  · rw [div_lt_iff₀ hπ]
    nlinarith

/-- C1 (amended): for all positive dimensions with true angle strictly
between 15° and 70°, height ≤ 4.0, width ≥ 1.2, height/width ≤ 2.0, and
`height * tan(angle) ≤ depth` (angle being the derived angle; the claim's
original 1 cm tolerance bound is strengthened to the exact bound the final
validation check requires), `calculate_wall` raises no validation error and
the derived angle equals `round(degrees(atan(depth/height)), 1)`. -/
theorem spec_c1 : ∀ s : WallSpec,
    0 < s.height → 0 < s.width → 0 < s.depth →
    15 < degOf (Real.arctan (s.depth / s.height)) →
    degOf (Real.arctan (s.depth / s.height)) < 70 →
    s.height ≤ 4.0 → 1.2 ≤ s.width → s.height / s.width ≤ 2.0 →
    s.height * Real.tan (radOf s.angle_deg) ≤ s.depth →
    (∀ e, calculate_wall s = Except.error e → e = WallError.MinimumCapacityViolation) ∧
    s.angle_deg = round1 (degOf (Real.arctan (s.depth / s.height))) := by
  intro s h1 h2 h3 h4 h5 h6 h7 h8 h9
  have ha15 : 15 ≤ s.angle_deg := round1_ge_15 h4
  have ha70 : s.angle_deg ≤ 70 := round1_le_70 h5
  have hfv : firstViolation s = none := by
    unfold firstViolation
    rw [if_neg (show ¬(s.height ≤ 0 ∨ s.width ≤ 0 ∨ s.depth ≤ 0) from by
          push_neg
          exact ⟨h1, h2, h3⟩)]
    rw [if_neg (not_lt.mpr ha15), if_neg (not_lt.mpr ha70), if_neg (not_lt.mpr h6),
      if_neg (not_lt.mpr h7), if_neg (not_lt.mpr h8)]
    rw [if_neg (show ¬(s.height * Real.tan (radOf s.angle_deg) > s.depth + 0.01) from
          not_lt.mpr (by linarith))]
    rw [if_neg (show ¬(s.height * 1000 * Real.tan (radOf s.angle_deg) > s.depth * 1000) from
          not_lt.mpr (by nlinarith))]
  refine ⟨fun e he => ?_, rfl⟩
  by_cases hw : safe_climber_weight s s.angle_deg < 80
  · rw [cw_min_cap s hfv hw] at he
    injection he with h
    exact h.symm
  · rw [cw_ok_of s hfv hw] at he
    exact absurd he (by simp)

/-- Witness for C1 at the reference wall. -/
theorem spec_c1_w :
    (∀ e, calculate_wall wallA = Except.error e → e = WallError.MinimumCapacityViolation) ∧
    wallA.angle_deg = round1 (degOf (Real.arctan (wallA.depth / wallA.height))) := by
  apply spec_c1 wallA
  · norm_num [wallA]
  · norm_num [wallA]
  · norm_num [wallA]
  · rw [show wallA.depth / wallA.height = 1 from by norm_num [wallA], deg_arctan_one]
    norm_num
  · rw [show wallA.depth / wallA.height = 1 from by norm_num [wallA], deg_arctan_one]
    norm_num
  · norm_num [wallA]
  · norm_num [wallA]
  · norm_num [wallA]
  · rw [angle_wallA, tan_rad45]
    norm_num [wallA]

/-- Counterexample to C1 as stated: `wallD` satisfies all the claim's
hypotheses (with the original 1 cm tolerance depth bound) yet
`calculate_wall` raises the exact-depth validation error, so validation
does not succeed. -/
theorem spec_c1_cx :
    (0 < wallD.height ∧ 0 < wallD.width ∧ 0 < wallD.depth ∧
     15 < degOf (Real.arctan (wallD.depth / wallD.height)) ∧
     degOf (Real.arctan (wallD.depth / wallD.height)) < 70 ∧
     wallD.height ≤ 4.0 ∧ 1.2 ≤ wallD.width ∧ wallD.height / wallD.width ≤ 2.0 ∧
     wallD.height * Real.tan (radOf wallD.angle_deg) ≤ wallD.depth + 0.01) ∧
    ¬ (∀ e, calculate_wall wallD = Except.error e →
        e = WallError.MinimumCapacityViolation) := by
  have hd : wallD.depth / wallD.height = (599:ℝ)/600 := by norm_num [wallD]
  constructor
  · refine ⟨by norm_num [wallD], by norm_num [wallD], by norm_num [wallD], ?_, ?_,
      by norm_num [wallD], by norm_num [wallD], by norm_num [wallD], ?_⟩
    · rw [hd]
      exact degD_bounds.1
    · rw [hd]
      exact degD_bounds.2
    · rw [angle_wallD, tan_rad45]
      norm_num [wallD]
  · intro hall
    have h := hall WallError.ExactDepthExceeded cw_wallD
    exact absurd h (by simp)

/-- C2: the validation checks run in the fixed order encoded by
`firstViolation` (NonPositiveDimension, AngleTooShallow, AngleTooSteep,
HeightExceedsLimit, WidthTooNarrow, aspect limit, InsufficientDepth with
tolerance, exact depth); on any input violating several checks exactly the
first violated check's error is raised, and no materials list is produced
on any failure. -/
theorem spec_c2 : ∀ s : WallSpec,
    (∀ e, firstViolation s = some e → calculate_wall s = Except.error e) ∧
    (firstViolation s = none →
      calculate_wall s = Except.error WallError.MinimumCapacityViolation ∨
      ∃ m, calculate_wall s = Except.ok m) ∧
    (∀ e, calculate_wall s = Except.error e → ∀ m, calculate_wall s ≠ Except.ok m) := by
  intro s
  refine ⟨fun e he => cw_eq_of_fv_some s e he, fun hfv => ?_, fun e he m hm => ?_⟩
  · by_cases hw : safe_climber_weight s s.angle_deg < 80
    · exact Or.inl (cw_min_cap s hfv hw)
    · exact Or.inr ⟨materials s s.angle_deg, cw_ok_of s hfv hw⟩
  · rw [he] at hm
    exact absurd hm (by simp)

/-- Witness for C2 at the negative-height wall. -/
theorem spec_c2_w :
    calculate_wall wallN = Except.error WallError.NonPositiveDimension ∧
    firstViolation wallN = some WallError.NonPositiveDimension :=
  ⟨(spec_c2 wallN).1 WallError.NonPositiveDimension fv_wallN, fv_wallN⟩

/-- C3: for every spec passing all geometric checks, `calculate_wall`
returns a materials list iff the spec's capacity formula is at least 80; on
success the stored weight equals that formula exactly, otherwise the
minimum-capacity error is raised; in particular the (1.0, 1.2, 1.0)
scenario evaluates to 32 kg and fails. -/
theorem spec_c3 :
    (∀ s : WallSpec, firstViolation s = none →
      ((∃ m, calculate_wall s = Except.ok m) ↔ 80 ≤ specSafeWeight s) ∧
      (∀ m, calculate_wall s = Except.ok m → m.safe_climber_weight = specSafeWeight s) ∧
      (specSafeWeight s < 80 →
        calculate_wall s = Except.error WallError.MinimumCapacityViolation)) ∧
    specSafeWeight wallB = 32 ∧
    calculate_wall wallB = Except.error WallError.MinimumCapacityViolation := by
  refine ⟨fun s hfv => ⟨⟨?_, ?_⟩, ?_, ?_⟩, ssw_wallB, cw_wallB⟩
  · rintro ⟨m, hm⟩
    obtain ⟨-, hge, -⟩ := cw_ok_inv s m hm
    rw [scw_eq] at hge
    exact not_lt.mp hge
  · intro hge
    refine ⟨materials s s.angle_deg, cw_ok_of s hfv ?_⟩
    rw [scw_eq]
    exact not_lt.mpr hge
  · intro m hm
    obtain ⟨-, -, hme⟩ := cw_ok_inv s m hm
    rw [hme]
    exact scw_eq s
  · intro hlt
    apply cw_min_cap s hfv
    rw [scw_eq]
    exact hlt

/-- Witness for C3 at the minimum-capacity scenario wall. -/
theorem spec_c3_w :
    calculate_wall wallB = Except.error WallError.MinimumCapacityViolation ∧
    ¬ ∃ m, calculate_wall wallB = Except.ok m := by
  have h := spec_c3.1 wallB fv_wallB
  refine ⟨h.2.2 (by rw [ssw_wallB]; norm_num), fun hm => ?_⟩
  have h80 := h.1.mp hm
  rw [ssw_wallB] at h80
  norm_num at h80

/-- C4 (amended): whenever `calculate_wall` fails the final no-tolerance
depth check, the raised message is the fixed string "Not enough depth for
this angle. Reduce angle or increase depth.", which contains the substring
"Not enough depth" but not "too shallow". -/
theorem spec_c4 : ∀ (s : WallSpec) (fmt : ℝ → String),
    calculate_wall s = Except.error WallError.ExactDepthExceeded →
    WallError.message fmt WallError.ExactDepthExceeded =
      "Not enough depth for this angle. Reduce angle or increase depth." ∧
    containsStr (WallError.message fmt WallError.ExactDepthExceeded)
      "Not enough depth" = true ∧
    containsStr (WallError.message fmt WallError.ExactDepthExceeded)
      "too shallow" = false := by
  intro s fmt _
  have hm : WallError.message fmt WallError.ExactDepthExceeded =
      "Not enough depth for this angle. Reduce angle or increase depth." := rfl
  refine ⟨hm, ?_, ?_⟩
  · rw [hm]
    decide
  · rw [hm]
    decide

/-- Witness for C4 at `wallD`. -/
theorem spec_c4_w :
    WallError.message (fun _ => "") WallError.ExactDepthExceeded =
      "Not enough depth for this angle. Reduce angle or increase depth." ∧
    containsStr (WallError.message (fun _ => "") WallError.ExactDepthExceeded)
      "Not enough depth" = true ∧
    containsStr (WallError.message (fun _ => "") WallError.ExactDepthExceeded)
      "too shallow" = false :=
  spec_c4 wallD (fun _ => "") cw_wallD

/-- Counterexample to C4 as stated: at `wallD` the final no-tolerance depth
check fails, and the raised message does not contain "too shallow". -/
theorem spec_c4_cx :
    calculate_wall wallD = Except.error WallError.ExactDepthExceeded ∧
    containsStr (WallError.message (fun _ => "") WallError.ExactDepthExceeded)
      "too shallow" = false :=
  ⟨cw_wallD, by decide⟩

/-- C5: for every spec with nonzero height, the derived angle equals
`round(degrees(atan(depth/height)), 1)`, and it is a pure function of the
current height and depth (recomputed on access, never stored). -/
theorem spec_c5 : ∀ s : WallSpec, s.height ≠ 0 →
    s.angle_deg = round1 (degOf (Real.arctan (s.depth / s.height))) ∧
    ∀ t : WallSpec, s.height = t.height → s.depth = t.depth →
      s.angle_deg = t.angle_deg := by
  intro s _
  refine ⟨rfl, fun t hh hd => ?_⟩
  unfold WallSpec.angle_deg
  rw [hh, hd]

/-- Witness for C5 at the reference wall (compared against a wall with a
different width but the same height and depth). -/
theorem spec_c5_w :
    wallA.angle_deg = round1 (degOf (Real.arctan (wallA.depth / wallA.height))) ∧
    wallA.angle_deg = WallSpec.angle_deg ⟨2.4, 9, 2.4⟩ :=
  ⟨(spec_c5 wallA (by norm_num [wallA])).1,
   (spec_c5 wallA (by norm_num [wallA])).2 ⟨2.4, 9, 2.4⟩
     (by norm_num [wallA]) (by norm_num [wallA])⟩

/-- C6: for two specs of identical width and height that both produce a
materials list, one with derived angle ≤ 45° and one with derived angle
over 45°, the steeper spec's safe climber weight is exactly 0.8 times the
shallower one's. -/
theorem spec_c6 : ∀ (s t : WallSpec) (ms mt : MaterialList),
    s.width = t.width → s.height = t.height →
    calculate_wall s = Except.ok ms → calculate_wall t = Except.ok mt →
    s.angle_deg ≤ 45 → 45 < t.angle_deg →
    mt.safe_climber_weight = 0.8 * ms.safe_climber_weight := by
  intro s t ms mt hw hh hs ht has hat
  obtain ⟨-, -, hms⟩ := cw_ok_inv s ms hs
  obtain ⟨-, -, hmt⟩ := cw_ok_inv t mt ht
  rw [hms, hmt]
  show safe_climber_weight t t.angle_deg = 0.8 * safe_climber_weight s s.angle_deg
  rw [scw_eq, scw_eq]
  unfold specSafeWeight
  rw [if_pos hat, if_pos hat, if_neg (not_lt.mpr has), if_neg (not_lt.mpr has), ← hw, ← hh]
  rw [min_scale (s.width * s.height * 200)]
  ring

/-- Witness for C6 at the reference wall (45°) against the steep wall (60°). -/
theorem spec_c6_w :
    (materials wallC 60).safe_climber_weight =
      0.8 * (materials wallA 45).safe_climber_weight :=
  spec_c6 wallA wallC (materials wallA 45) (materials wallC 60)
    (by norm_num [wallA, wallC]) (by norm_num [wallA, wallC]) cw_wallA cw_wallC
    (by rw [angle_wallA]) (by rw [angle_wallC]; norm_num)

/-- C7: every returned materials list has
`plywood_sheets = ceil(width_mm / 1250) * ceil(panelHeight_mm / 2500)` with
`panelHeight = height / cos(derived angle)`, and the count is at least 1. -/
theorem spec_c7 : ∀ (s : WallSpec) (m : MaterialList), calculate_wall s = Except.ok m →
    m.plywood_sheets =
      ⌈s.width * 1000 / 1250⌉ * ⌈s.height * 1000 / Real.cos (radOf s.angle_deg) / 2500⌉ ∧
    1 ≤ m.plywood_sheets := by
  intro s m h
  obtain ⟨hfv, -, hm⟩ := cw_ok_inv s m h
  obtain ⟨hh, hww, -, h15, h70⟩ := fv_none_facts s hfv
  subst hm
  refine ⟨rfl, ?_⟩
  have hπ : 0 < Real.pi := Real.pi_pos
  have hrad_pos : 0 < radOf s.angle_deg := by
    unfold radOf
    exact div_pos (mul_pos (by linarith) hπ) (by norm_num)
  have hrad_lt : radOf s.angle_deg < Real.pi / 2 := by
    unfold radOf
    rw [div_lt_div_iff₀ (by norm_num : (0:ℝ) < 180) (by norm_num : (0:ℝ) < 2)]
    have key : s.angle_deg * Real.pi ≤ 70 * Real.pi :=
      mul_le_mul_of_nonneg_right h70 (le_of_lt hπ)
    nlinarith
  have hcos : 0 < Real.cos (radOf s.angle_deg) :=
    Real.cos_pos_of_mem_Ioo ⟨by linarith, hrad_lt⟩
  have hc1 : (0:ℤ) < ⌈s.width * 1000 / 1250⌉ := by
    rw [Int.ceil_pos]
    positivity
  have hc2 : (0:ℤ) < ⌈s.height * 1000 / Real.cos (radOf s.angle_deg) / 2500⌉ := by
    rw [Int.ceil_pos]
    exact div_pos (div_pos (by positivity) hcos) (by norm_num)
  show (1:ℤ) ≤ ⌈s.width * 1000 / 1250⌉ * ⌈s.height * 1000 / Real.cos (radOf s.angle_deg) / 2500⌉
  have h4 := Int.lt_iff_add_one_le.mp (mul_pos hc1 hc2)
  simpa using h4

/-- Witness for C7 at the reference wall. -/
theorem spec_c7_w :
    (materials wallA 45).plywood_sheets =
      ⌈wallA.width * 1000 / 1250⌉ *
        ⌈wallA.height * 1000 / Real.cos (radOf wallA.angle_deg) / 2500⌉ ∧
    1 ≤ (materials wallA 45).plywood_sheets :=
  spec_c7 wallA (materials wallA 45) cw_wallA

/-- C8: every returned materials list carries exactly the four timber
entries, in order: Base beam = width, Uprights (x2) = `2*height/cos(angle)`,
Cross braces (x2) = width, Kicker/struts = `height*tan(angle)`. -/
theorem spec_c8 : ∀ (s : WallSpec) (m : MaterialList), calculate_wall s = Except.ok m →
    m.timber_lengths =
      [("Base beam", s.width),
       ("Uprights (x2)", 2 * s.height / Real.cos (radOf s.angle_deg)),
       ("Cross braces (x2)", s.width),
       ("Kicker/struts", s.height * Real.tan (radOf s.angle_deg))] := by
  intro s m h
  obtain ⟨-, -, hm⟩ := cw_ok_inv s m h
  subst hm
  show timber_lengths s s.angle_deg = _
  unfold timber_lengths
  have e1 : s.width * 1000 / 1000 = s.width := by ring
  have e2 : 2 * (s.height * 1000) / Real.cos (radOf s.angle_deg) / 1000 =
      2 * s.height / Real.cos (radOf s.angle_deg) := by ring
  have e3 : s.height * 1000 * Real.tan (radOf s.angle_deg) / 1000 =
      s.height * Real.tan (radOf s.angle_deg) := by ring
  rw [e1, e2, e3]

/-- Witness for C8 at the reference wall. -/
theorem spec_c8_w :
    (materials wallA 45).timber_lengths =
      [("Base beam", wallA.width),
       ("Uprights (x2)", 2 * wallA.height / Real.cos (radOf wallA.angle_deg)),
       ("Cross braces (x2)", wallA.width),
       ("Kicker/struts", wallA.height * Real.tan (radOf wallA.angle_deg))] :=
  spec_c8 wallA (materials wallA 45) cw_wallA

/-- C9: every returned materials list satisfies
`80 ≤ safe_climber_weight ≤ 160`: the lower bound from the final capacity
check, the upper bound because the raw capacity never exceeds the fixed
1200 kg timber rating, divided by the combined factor 7.5. -/
theorem spec_c9 : ∀ (s : WallSpec) (m : MaterialList), calculate_wall s = Except.ok m →
    80 ≤ m.safe_climber_weight ∧ m.safe_climber_weight ≤ 160 := by
  intro s m h
  obtain ⟨-, hge, hm⟩ := cw_ok_inv s m h
  subst hm
  show 80 ≤ safe_climber_weight s s.angle_deg ∧ safe_climber_weight s s.angle_deg ≤ 160
  refine ⟨not_lt.mp hge, ?_⟩
  unfold safe_climber_weight safe_capacity raw_capacity
  have hmin : min (min (panel_capacity s s.angle_deg) (timber_capacity s.angle_deg)) 6400 ≤
      timber_capacity s.angle_deg :=
    le_trans (min_le_left _ _) (min_le_right _ _)
  have htc : timber_capacity s.angle_deg ≤ 1200 := by
    unfold timber_capacity
    split_ifs
    · norm_num
    · norm_num
  have h1 : min (min (panel_capacity s s.angle_deg) (timber_capacity s.angle_deg)) 6400 ≤
      1200 := le_trans hmin htc
  calc min (min (panel_capacity s s.angle_deg) (timber_capacity s.angle_deg)) 6400 / 3.0 / 2.5
      ≤ 1200 / 3.0 / 2.5 := by
        rw [div_le_div_iff_of_pos_right (by norm_num : (0:ℝ) < 2.5),
          div_le_div_iff_of_pos_right (by norm_num : (0:ℝ) < 3.0)]
        exact h1
    _ = 160 := by norm_num

/-- Witness for C9 at the reference wall. -/
theorem spec_c9_w :
    80 ≤ (materials wallA 45).safe_climber_weight ∧
    (materials wallA 45).safe_climber_weight ≤ 160 :=
  spec_c9 wallA (materials wallA 45) cw_wallA

/-- C10: the derived-angle property divides depth by height, so accessing
it on a zero-height spec is a division error (`none`), not a validation
error; inside `calculate_wall` that division is unreachable for invalid
inputs, since the positivity check runs first: every spec with
height ≤ 0 yields the NonPositiveDimension error, and the division-checked
run `calculate_wallM` never fails with the division error. -/
theorem spec_c10 :
    (∀ s : WallSpec, s.height = 0 → s.angle_degM = none) ∧
    (∀ s : WallSpec, s.height ≤ 0 →
      calculate_wall s = Except.error WallError.NonPositiveDimension) ∧
    (∀ s : WallSpec, calculate_wallM s = some (calculate_wall s)) := by
  refine ⟨fun s h => ?_, fun s h => ?_, fun s => ?_⟩
  · unfold WallSpec.angle_degM
    rw [if_pos h]
  · unfold calculate_wall
    rw [if_pos (Or.inl h)]
  · unfold calculate_wallM calculate_wall
    by_cases h : s.height ≤ 0 ∨ s.width ≤ 0 ∨ s.depth ≤ 0
    · rw [if_pos h, if_pos h]
    · rw [if_neg h, if_neg h]
      have hh : s.height ≠ 0 := by
        push_neg at h
        exact ne_of_gt h.1
      unfold WallSpec.angle_degM
      rw [if_neg hh]
      rfl

/-- Witness for C10 at the zero-height wall. -/
theorem spec_c10_w :
    WallSpec.angle_degM wallZ = none ∧
    calculate_wall wallZ = Except.error WallError.NonPositiveDimension ∧
    calculate_wallM wallZ = some (calculate_wall wallZ) :=
  ⟨spec_c10.1 wallZ (by norm_num [wallZ]), spec_c10.2.1 wallZ (by norm_num [wallZ]),
   spec_c10.2.2 wallZ⟩

end

end ClimbingWall
